import Mathlib

/-!
Shallow embedding of the `platform_contracts` schema library.

Python `str` values are modelled as `List Char` over the ASCII fragment
(on which Python's `str.isdigit` coincides with the regex class `\d`),
Python `Decimal` values as `ℚ` (exact decimal values embed into the
rationals and `+`, `<`, `==` agree), `float` scores as `ℚ` (ordering
comparisons against the bounds are exact), and pydantic construction as
a total Lean function returning `Except` with the list of all collected
validation errors, mirroring pydantic v2's behaviour of aggregating
every field violation of one construction attempt into one
`ValidationError`.
-/

namespace PlatformContracts

/-- Python strings, modelled as lists of characters. -/
abbrev PyStr := List Char

/-- Python `s.split(sep)` for a one-character separator `c`:
`"".split(".") = [""]`, and every occurrence of `c` starts a new segment. -/
def pySplit (c : Char) : PyStr → List PyStr
  | [] => [[]]
  | x :: xs =>
    if x = c then [] :: pySplit c xs
    else
      match pySplit c xs with
      | [] => [[x]]
      | p :: ps => (x :: p) :: ps

/-- Python `s.isdigit()` (ASCII fragment): nonempty and every character a
decimal digit `0`-`9`. -/
def pyIsdigit (s : PyStr) : Bool :=
  !s.isEmpty && s.all Char.isDigit

/-- Source `src/platform_contracts/versioning.py`: `VersionedSchema`, the base
schema carrying `schema_version` (pydantic default `"1.0"`). -/
structure VersionedSchema where
  schema_version : PyStr := ['1', '.', '0']
deriving DecidableEq

/-- The `ValueError` message raised by `validate_version`. -/
def invalidVersionMsg (v : PyStr) : PyStr :=
  ("Invalid schema version format: ").toList ++ v ++ (". Expected major.minor.").toList

/-- Source `VersionedSchema.validate_version`: split on `.`; reject unless there are
exactly two segments and both satisfy `isdigit`; return `v` unchanged. -/
def validate_version (v : PyStr) : Except PyStr PyStr :=
  let parts := pySplit '.' v
  if parts.length != 2 || !(parts.all pyIsdigit) then
    Except.error (invalidVersionMsg v)
  else
    Except.ok v

/-- Pydantic construction of a `VersionedSchema` with an explicit
`schema_version=s`: runs the `validate_version` field validator and stores
its result. -/
def mkVersionedSchema (s : PyStr) : Except PyStr VersionedSchema :=
  (validate_version s).map (fun v => { schema_version := v })

/-- Source `VersionedSchema.is_compatible`: compare `split(".")[0]` of the two
version strings (Python `[0]` on the never-empty result of `split`). -/
def is_compatible (self : VersionedSchema) (other_version : PyStr) : Bool :=
  let my_major := (pySplit '.' self.schema_version).headD []
  let other_major := (pySplit '.' other_version).headD []
  my_major == other_major

/-- Spec-side: the substring of `s` before its first `.` (the whole string
when `s` contains no `.`). -/
def majorOf (s : PyStr) : PyStr :=
  s.takeWhile (fun x => x != '.')

/-- Spec-side: `s` matches the regex `^\d+\.\d+$` — a nonempty run of
decimal digits, a literal dot, and a nonempty run of decimal digits. -/
def matchesMajorMinor (s : PyStr) : Bool :=
  let a := s.takeWhile (fun x => x != '.')
  match s.dropWhile (fun x => x != '.') with
  | [] => false
  | _ :: b =>
    !a.isEmpty && a.all Char.isDigit && !b.isEmpty && b.all Char.isDigit

/-- Models Python attribute assignment `r.schema_version = v` on a pydantic
model: no model in the repository sets `frozen=True` or
`validate_assignment=True` in its `model_config`, so pydantic's default
configuration stores the new value without any validation. -/
def set_schema_version (r : VersionedSchema) (v : PyStr) : VersionedSchema :=
  { r with schema_version := v }

/-- Python `sum(...)` over decimals: left fold of exact addition from `0`. -/
def pySum (l : List ℚ) : ℚ := l.foldl (· + ·) 0

/-- Source `src/platform_contracts/common/money.py`: `Money`. -/
structure Money where
  amount : ℚ
  currency : PyStr := ("USD").toList
deriving DecidableEq

/-- Source `Money.is_positive`: `self.amount > 0`. -/
def Money.is_positive (m : Money) : Bool := decide (m.amount > 0)

/-- Source `Money.is_negative`: `self.amount < 0`. -/
def Money.is_negative (m : Money) : Bool := decide (m.amount < 0)

/-- Source `Money.is_zero`: `self.amount == Decimal("0")`. -/
def Money.is_zero (m : Money) : Bool := decide (m.amount = 0)

/-- Python `datetime.date` (carrier only; no claim depends on calendar
arithmetic). -/
structure PyDate where
  year : Int
  month : Int
  day : Int
deriving DecidableEq

/-- Source `src/platform_contracts/accounting/journal_entry.py`: `JournalEntryLine`. -/
structure JournalEntryLine where
  account_id : PyStr
  account_name : PyStr := []
  debit : ℚ := 0
  credit : ℚ := 0
  description : PyStr := []
  entity_id : PyStr := []
  entity_type : PyStr := []
deriving DecidableEq

/-- Source `src/platform_contracts/accounting/journal_entry.py`: `JournalEntry`. -/
structure JournalEntry extends VersionedSchema where
  entry_id : PyStr := []
  entry_date : PyDate
  memo : PyStr := []
  lines : List JournalEntryLine := []
  source : PyStr := []
  reference_id : PyStr := []
  is_adjusting : Bool := false
deriving DecidableEq

/-- Source `JournalEntry.is_balanced`:
`sum(line.debit for line in self.lines) == sum(line.credit ...)`. -/
def JournalEntry.is_balanced (e : JournalEntry) : Bool :=
  decide (pySum (e.lines.map (fun line => line.debit)) =
    pySum (e.lines.map (fun line => line.credit)))

/-- The single error entry contributed by the `schema_version` field
validator: empty when the validator passes, the raised message otherwise. -/
def versionErrors (v : PyStr) : List PyStr :=
  match validate_version v with
  | Except.ok _ => []
  | Except.error e => [e]

/-- Pydantic `Field required` error entry for a missing required field. -/
def missingFieldMsg (fname : PyStr) : PyStr :=
  fname ++ (": Field required").toList

/-- Error entries for one required field: one `Field required` entry when
the input did not supply it. -/
def requiredErr {α : Type} (fname : PyStr) : Option α → List PyStr
  | none => [missingFieldMsg fname]
  | some _ => []

/-- Extracts the reported error list of a construction attempt
(empty on success). -/
def constructionErrors {α : Type} : Except (List PyStr) α → List PyStr
  | Except.error es => es
  | Except.ok _ => []

/-- Source `src/platform_contracts/tax/estimate_request.py`: `TaxComputeRequest`.
`as_of_month` is declared `Field(ge=1, le=12)` and has no default. -/
structure TaxComputeRequest extends VersionedSchema where
  tenant_id : PyStr := []
  client_id : PyStr := []
  tax_year : Int := 2025
  as_of_month : Int
  filing_status : PyStr := []
  entity_type : PyStr := []
  state : PyStr := []
  gross_receipts_ytd : ℚ := 0
  cost_of_goods_sold_ytd : ℚ := 0
  total_expenses_ytd : ℚ := 0
  officer_compensation_ytd : ℚ := 0
  other_income_ytd : ℚ := 0
  w2_income : ℚ := 0
  spouse_w2_income : ℚ := 0
  capital_gains : ℚ := 0
  other_taxable_income : ℚ := 0
  itemized_deductions : ℚ := 0
  prior_year_overpayment : ℚ := 0
  estimated_payments_ytd : ℚ := 0
  qbi_eligible : Bool := true
  qbi_prior_year_loss : ℚ := 0
deriving DecidableEq

/-- Pydantic message for violating `ge=1` on `as_of_month`. -/
def monthGeMsg : PyStr :=
  ("as_of_month: Input should be greater than or equal to 1").toList

/-- Pydantic message for violating `le=12` on `as_of_month`. -/
def monthLeMsg : PyStr :=
  ("as_of_month: Input should be less than or equal to 12").toList

/-- Pydantic construction of a `TaxComputeRequest` from an already-populated
candidate record: collects the `schema_version` validator error and the
`ge=1`/`le=12` violations of `as_of_month` into one reported error list. -/
def mkTaxComputeRequest (r : TaxComputeRequest) :
    Except (List PyStr) TaxComputeRequest :=
  match versionErrors r.schema_version ++
      (if r.as_of_month < 1 then [monthGeMsg] else []) ++
      (if 12 < r.as_of_month then [monthLeMsg] else []) with
  | [] => Except.ok r
  | es => Except.error es

/-- Source `src/platform_contracts/tax/estimate_result.py`: `QuarterlyPayment`. -/
structure QuarterlyPayment where
  quarter : Int
  due_date : PyStr := []
  federal_amount : ℚ := 0
  state_amount : ℚ := 0
  total_amount : ℚ := 0
  status : PyStr := []
deriving DecidableEq

/-- Source `src/platform_contracts/tax/estimate_result.py`: `TaxComputeResponse`.
`as_of_month` is declared `int = 0` with no range constraint. -/
structure TaxComputeResponse extends VersionedSchema where
  tenant_id : PyStr := []
  client_id : PyStr := []
  tax_year : Int := 2025
  as_of_month : Int := 0
  projected_annual_revenue : ℚ := 0
  projected_annual_expenses : ℚ := 0
  projected_net_income : ℚ := 0
  total_federal_tax : ℚ := 0
  total_state_tax : ℚ := 0
  total_self_employment_tax : ℚ := 0
  total_tax_liability : ℚ := 0
  recommended_set_aside_pct : ℚ := 0
  recommended_monthly_set_aside : ℚ := 0
  quarterly_payments : List QuarterlyPayment := []
  effective_tax_rate : ℚ := 0
  marginal_tax_rate : ℚ := 0
  qbi_deduction : ℚ := 0
deriving DecidableEq

/-- Pydantic construction of a `TaxComputeResponse`: the source declares no
constraint on any field beyond the inherited `schema_version` validator, so
that validator's outcome alone decides success. -/
def mkTaxComputeResponse (r : TaxComputeResponse) :
    Except (List PyStr) TaxComputeResponse :=
  match versionErrors r.schema_version with
  | [] => Except.ok r
  | es => Except.error es

/-- Source `src/platform_contracts/accounting/classification.py`: `ClientContext`. -/
structure ClientContext where
  business_type : PyStr := []
  industry : PyStr := []
  tax_filing_type : PyStr := []
  state : PyStr := []
deriving DecidableEq

/-- Source `classification.py`: `AvailableAccount`. -/
structure AvailableAccount where
  id : PyStr
  name : PyStr
  type : PyStr := []
  sub_type : PyStr := []
  schedule_c_line : PyStr := []
deriving DecidableEq

/-- Source `classification.py`: `ExistingRule`. -/
structure ExistingRule where
  pattern : PyStr
  category_id : PyStr
  category_name : PyStr := []
deriving DecidableEq

/-- Source `classification.py`: `HistoricalPattern`. -/
structure HistoricalPattern where
  description : PyStr
  account_id : PyStr
  account_name : PyStr := []
  count : Int := 0
deriving DecidableEq

/-- Source `classification.py`: `TransactionForClassification`. -/
structure TransactionForClassification where
  transaction_id : PyStr
  description : PyStr
  amount : ℚ
  transaction_date : PyDate
  transaction_type : PyStr := []
  bank_account_type : PyStr := []
  vendor_name : PyStr := []
  memo : PyStr := []
  plaid_category : List PyStr := []
  plaid_merchant_name : PyStr := []
deriving DecidableEq

/-- Source `classification.py`: `TransactionClassificationRequest`; `tenant_id`,
`client_id` and `transactions` are required (no default). -/
structure TransactionClassificationRequest extends VersionedSchema where
  tenant_id : PyStr
  client_id : PyStr
  transactions : List TransactionForClassification
  available_accounts : List AvailableAccount := []
  existing_rules : List ExistingRule := []
  historical_patterns : List HistoricalPattern := []
  client_context : ClientContext := {}
deriving DecidableEq

/-- The reported error list for a `TransactionClassificationRequest`
construction attempt whose three required fields may be absent: pydantic
collects the `schema_version` validator error and one `Field required`
entry per missing required field, in field order. -/
def requestErrors (sv : PyStr) (tenant_id client_id : Option PyStr)
    (transactions : Option (List TransactionForClassification)) : List PyStr :=
  versionErrors sv ++
    requiredErr ("tenant_id").toList tenant_id ++
    requiredErr ("client_id").toList client_id ++
    requiredErr ("transactions").toList transactions

/-- Pydantic construction of a `TransactionClassificationRequest` from raw
input: required fields may be absent (`none`); all violations found in the
one attempt are aggregated into one reported error. -/
def mkTransactionClassificationRequest (sv : PyStr)
    (tenant_id client_id : Option PyStr)
    (transactions : Option (List TransactionForClassification))
    (available_accounts : List AvailableAccount)
    (existing_rules : List ExistingRule)
    (historical_patterns : List HistoricalPattern)
    (client_context : ClientContext) :
    Except (List PyStr) TransactionClassificationRequest :=
  match tenant_id, client_id, transactions with
  | some t, some c, some txs =>
    match requestErrors sv (some t) (some c) (some txs) with
    | [] =>
      Except.ok
        { schema_version := sv
          tenant_id := t
          client_id := c
          transactions := txs
          available_accounts := available_accounts
          existing_rules := existing_rules
          historical_patterns := historical_patterns
          client_context := client_context }
    | es => Except.error es
  | t, c, txs => Except.error (requestErrors sv t c txs)

/-- Source `classification.py`: `RiskFlag`. -/
structure RiskFlag where
  code : PyStr
  severity : PyStr := ("medium").toList
  message : PyStr := []
deriving DecidableEq

/-- Source `classification.py`: `AlternativeSuggestion`. -/
structure AlternativeSuggestion where
  account_id : PyStr
  name : PyStr := []
  confidence : ℚ := 0
deriving DecidableEq

/-- Source `classification.py`: `TransactionClassificationResult`; `confidence` is
declared `Field(ge=0.0, le=1.0)` with no default. -/
structure TransactionClassificationResult extends VersionedSchema where
  transaction_id : PyStr
  suggested_account_id : Option PyStr := none
  suggested_account_name : PyStr := []
  suggested_vendor_id : Option PyStr := none
  suggested_vendor_name : PyStr := []
  confidence : ℚ
  confidence_band : PyStr := []
  source : PyStr := []
  reasoning : PyStr := []
  needs_review : Bool := false
  needs_clarification : Bool := false
  clarification_question : PyStr := []
  risk_flags : List RiskFlag := []
  alternative_suggestions : List AlternativeSuggestion := []
deriving DecidableEq

/-- Pydantic message for violating `ge=0.0` on `confidence`. -/
def confidenceGeMsg : PyStr :=
  ("confidence: Input should be greater than or equal to 0").toList

/-- Pydantic message for violating `le=1.0` on `confidence`. -/
def confidenceLeMsg : PyStr :=
  ("confidence: Input should be less than or equal to 1").toList

/-- Pydantic construction of a `TransactionClassificationResult` from an
already-populated candidate record: collects the `schema_version` validator
error and the `ge=0.0`/`le=1.0` violations of `confidence` into one
reported error list. -/
def mkTransactionClassificationResult (r : TransactionClassificationResult) :
    Except (List PyStr) TransactionClassificationResult :=
  match versionErrors r.schema_version ++
      (if r.confidence < 0 then [confidenceGeMsg] else []) ++
      (if 1 < r.confidence then [confidenceLeMsg] else []) with
  | [] => Except.ok r
  | es => Except.error es

/-- Source `classification.py`: `SuggestedRule`. -/
structure SuggestedRule where
  pattern : PyStr
  suggested_account_id : PyStr
  suggested_account_name : PyStr := []
  confidence : ℚ := 0
deriving DecidableEq

/-- Source `classification.py`: `ClassificationResponseMeta`. -/
structure ClassificationResponseMeta where
  request_id : PyStr := []
  duration_ms : Int := 0
  model : PyStr := []
  transactions_processed : Int := 0
  rule_matches : Int := 0
  historical_matches : Int := 0
  ai_classifications : Int := 0
deriving DecidableEq

/-- Source `classification.py`: `BatchClassificationResponse`; the `meta` field is
declared with `alias="_meta"` and the model sets
the model enables `populate_by_name` in its `model_config`. -/
structure BatchClassificationResponse extends VersionedSchema where
  classifications : List TransactionClassificationResult
  suggested_rules : List SuggestedRule := []
  meta : ClassificationResponseMeta := {}
deriving DecidableEq

/-- Models pydantic field population for the aliased `meta` field: the input
may carry the value under the alias key `_meta` or (because
`populate_by_name` is enabled) under the field name `meta`; the alias key
takes priority, and with neither key the default applies. -/
def resolveMetaField (byAlias byName : Option ClassificationResponseMeta) :
    ClassificationResponseMeta :=
  match byAlias with
  | some m => m
  | none => byName.getD {}

/-- Pydantic construction of a `BatchClassificationResponse` whose `meta`
value may arrive under the alias key `_meta` (`byAlias`) or under the field
name `meta` (`byName`); the remaining fields arrive as typed values. -/
def mkBatchClassificationResponse (sv : PyStr)
    (classifications : List TransactionClassificationResult)
    (suggested_rules : List SuggestedRule)
    (byAlias byName : Option ClassificationResponseMeta) :
    Except (List PyStr) BatchClassificationResponse :=
  match versionErrors sv with
  | [] =>
    Except.ok
      { schema_version := sv
        classifications := classifications
        suggested_rules := suggested_rules
        meta := resolveMetaField byAlias byName }
  | es => Except.error es

/-! ## Helper lemmas about `pySplit` -/

theorem pySplit_cons (c : Char) (s : PyStr) :
    pySplit c s = s.takeWhile (fun x => x != c) ::
      (match s.dropWhile (fun x => x != c) with
       | [] => []
       | _ :: r => pySplit c r) := by
  induction s with
  | nil => simp [pySplit]
  | cons x xs ih =>
    by_cases h : x = c
    · subst h
      simp [pySplit, List.takeWhile_cons, List.dropWhile_cons]
    · rw [pySplit]
      simp only [if_neg h]
      rw [ih]
      simp [List.takeWhile_cons, List.dropWhile_cons, h]

theorem pySplit_ne_nil (c : Char) (s : PyStr) : pySplit c s ≠ [] := by
  rw [pySplit_cons]; exact List.cons_ne_nil _ _

theorem pySplit_headD (c : Char) (s : PyStr) :
    (pySplit c s).headD [] = s.takeWhile (fun x => x != c) := by
  rw [pySplit_cons]; rfl

theorem pySplit_length (c : Char) (s : PyStr) :
    (pySplit c s).length = s.count c + 1 := by
  induction s with
  | nil => simp [pySplit]
  | cons x xs ih =>
    by_cases h : x = c
    · subst h
      simp [pySplit, List.count_cons, ih]
    · rw [pySplit]
      simp only [if_neg h]
      cases hsplit : pySplit c xs with
      | nil => exact absurd hsplit (pySplit_ne_nil c xs)
      | cons p ps =>
        rw [hsplit] at ih
        simp only [List.length_cons] at ih ⊢
        simp [List.count_cons, h, ← ih]

theorem pySplit_of_count_zero (c : Char) (s : PyStr) (h : s.count c = 0) :
    pySplit c s = [s] := by
  have hd : s.dropWhile (fun x => x != c) = [] := by
    rw [List.dropWhile_eq_nil_iff]
    intro x hx
    simp only [bne_iff_ne, ne_eq]
    intro he
    subst he
    exact absurd h (by simp [List.count_pos_iff.mpr hx |>.ne'])
  have ht : s.takeWhile (fun x => x != c) = s := by
    rw [List.takeWhile_eq_self_iff]
    intro x hx
    simp only [bne_iff_ne, ne_eq]
    intro he
    subst he
    exact absurd h (by simp [List.count_pos_iff.mpr hx |>.ne'])
  rw [pySplit_cons, hd, ht]

theorem matches_eq_check (s : PyStr) :
    matchesMajorMinor s =
      ((pySplit '.' s).length == 2 && (pySplit '.' s).all pyIsdigit) := by
  rw [matchesMajorMinor, pySplit_cons]
  cases hd : s.dropWhile (fun x => x != '.') with
  | nil => simp
  | cons d r =>
    simp only []
    by_cases hr : r.count '.' = 0
    · rw [pySplit_of_count_zero _ _ hr]
      simp [pyIsdigit, Bool.and_assoc, Bool.and_comm, Bool.and_left_comm]
    · have hmem : '.' ∈ r := by
        rcases Nat.exists_eq_succ_of_ne_zero hr with ⟨n, hn⟩
        exact List.count_pos_iff.mp (by omega)
      have hall : r.all Char.isDigit = false := by
        rw [List.all_eq_false]
        exact ⟨'.', hmem, by decide⟩
      have hlen : ((pySplit '.' r).length + 1 == 2) = false := by
        rw [pySplit_length]
        simp
        omega
      simp [hall, List.length_cons, hlen]

theorem versionErrors_nil_of_isOk (v : PyStr)
    (h : (validate_version v).isOk = true) : versionErrors v = [] := by
  rw [versionErrors]
  cases hv : validate_version v with
  | ok _ => rfl
  | error e => rw [hv] at h; simp [Except.isOk, Except.toBool] at h

theorem pySum_eq_sum (l : List ℚ) : pySum l = l.sum := by
  rw [pySum, List.sum_eq_foldl]

/-! ## Claim theorems -/

/-- Claim C1: constructing a `VersionedSchema` with `schema_version=s`
succeeds exactly when `s` matches `^\d+\.\d+$` (split on `.` yields two
all-digit segments); on success the stored `schema_version` is `s`
unchanged, and otherwise construction fails with the validation error. -/
theorem mkVersionedSchema_spec (s : PyStr) :
    mkVersionedSchema s =
      if matchesMajorMinor s then Except.ok { schema_version := s }
      else Except.error (invalidVersionMsg s) := by
  have hcond : ((pySplit '.' s).length != 2 || !((pySplit '.' s).all pyIsdigit)) =
      !(matchesMajorMinor s) := by
    rw [matches_eq_check]
    cases h1 : (pySplit '.' s).length == 2 <;>
      cases h2 : (pySplit '.' s).all pyIsdigit <;> simp [bne, h1, h2]
  rw [mkVersionedSchema, validate_version]
  simp only [hcond]
  cases hm : matchesMajorMinor s <;> simp [Except.map]

/-- Claim C2: `is_balanced` returns `true` exactly when the exact sum of
the line debits equals the exact sum of the line credits, and in
particular it returns `true` on an empty line list. -/
theorem is_balanced_spec :
    (∀ e : JournalEntry, e.is_balanced = true ↔
      (e.lines.map (fun line => line.debit)).sum =
        (e.lines.map (fun line => line.credit)).sum) ∧
    (∀ e : JournalEntry, e.lines = [] → e.is_balanced = true) := by
  have key : ∀ e : JournalEntry, e.is_balanced = true ↔
      (e.lines.map (fun line => line.debit)).sum =
        (e.lines.map (fun line => line.credit)).sum := by
    intro e
    rw [JournalEntry.is_balanced, pySum_eq_sum, pySum_eq_sum]
    exact decide_eq_true_iff
  refine ⟨key, fun e he => ?_⟩
  rw [key e, he]
  simp

/-- Witness for C2 at a concrete empty-lines journal entry. -/
theorem is_balanced_spec_witness :
    JournalEntry.is_balanced { entry_date := ⟨2024, 1, 1⟩ } = true :=
  is_balanced_spec.2 { entry_date := ⟨2024, 1, 1⟩ } rfl

/-- Claim C3: for a validly constructed `VersionedSchema`, `is_compatible`
holds exactly when the substring of `schema_version` before its first `.`
is string-equal to the substring of `other_version` before its first `.`. -/
theorem is_compatible_iff_major_eq (r : VersionedSchema) (other : PyStr)
    (_h : (validate_version r.schema_version).isOk = true) :
    is_compatible r other = true ↔
      majorOf r.schema_version = majorOf other := by
  rw [is_compatible]
  simp only [pySplit_headD, majorOf]
  exact beq_iff_eq

/-- Witness for C3: `"1.0"` is compatible with `"1.99"`. -/
theorem is_compatible_iff_major_eq_witness :
    is_compatible { schema_version := ("1.0").toList } (("1.99").toList) = true :=
  (is_compatible_iff_major_eq { schema_version := ("1.0").toList }
    (("1.99").toList) (by decide)).mpr (by decide)

/-- Claim C4: on any exact decimal amount exactly one of `is_positive`,
`is_negative` and `is_zero` returns `true`. -/
theorem money_sign_trichotomy (m : Money) :
    (m.is_positive = true ∧ m.is_negative = false ∧ m.is_zero = false) ∨
    (m.is_positive = false ∧ m.is_negative = true ∧ m.is_zero = false) ∨
    (m.is_positive = false ∧ m.is_negative = false ∧ m.is_zero = true) := by
  simp only [Money.is_positive, Money.is_negative, Money.is_zero,
    decide_eq_true_eq, decide_eq_false_iff_not]
  rcases lt_trichotomy m.amount 0 with h | h | h
  · exact Or.inr (Or.inl ⟨by linarith, h, h.ne⟩)
  · exact Or.inr (Or.inr ⟨by linarith, by linarith, h⟩)
  · exact Or.inl ⟨h, by linarith, by linarith⟩

/-- Claim C5: `is_compatible` is a total function of its two version
strings: for any `other_version`, malformed or not, it returns the
boolean comparison of the substrings before the first `.` (the whole
string when a `.` is absent), and never fails. -/
theorem is_compatible_total_spec (r : VersionedSchema) (other : PyStr) :
    is_compatible r other =
      (majorOf r.schema_version == majorOf other) := by
  rw [is_compatible]
  simp only [pySplit_headD, majorOf]

/-- Counterexample to claim C6: a constructed `VersionedSchema` is not
immutable — pydantic's default (non-frozen) configuration lets attribute
assignment change `schema_version` from `"1.0"` to `"2.0"`. -/
theorem schema_version_mutation_counterexample :
    (set_schema_version { schema_version := ("1.0").toList }
        (("2.0").toList)).schema_version = ("2.0").toList ∧
    (set_schema_version { schema_version := ("1.0").toList }
        (("2.0").toList)).schema_version ≠ ("1.0").toList := by
  constructor
  · rfl
  · decide

/-- Amended claim C6: no method of the library mutates an instance, but the
records are not frozen: Python attribute assignment is an update path that
stores any new value (even an invalid version string, since assignments are
not re-validated). -/
theorem set_schema_version_spec (r : VersionedSchema) (v : PyStr) :
    (set_schema_version r v).schema_version = v := rfl

/-- Counterexample to claim C7: constructing a `TaxComputeResponse` whose
`as_of_month` is `0` (its declared default) succeeds, because the response
field is declared `int = 0` with no range constraint. -/
theorem tax_response_month_zero_counterexample :
    (mkTaxComputeResponse { }).isOk = true ∧
    ({ } : TaxComputeResponse).as_of_month = 0 := by
  constructor
  · rfl
  · rfl

/-- Amended claim C7: `TaxComputeRequest.as_of_month` accepts at
construction exactly the integers in `[1, 12]`; `TaxComputeResponse` puts
no constraint on `as_of_month`, so its construction succeeds for every
integer value of the field, including `0` and `13`. -/
theorem tax_month_validation_spec :
    (∀ r : TaxComputeRequest, (validate_version r.schema_version).isOk = true →
      ((mkTaxComputeRequest r).isOk = true ↔
        1 ≤ r.as_of_month ∧ r.as_of_month ≤ 12)) ∧
    (∀ r : TaxComputeResponse, (validate_version r.schema_version).isOk = true →
      (mkTaxComputeResponse r).isOk = true) := by
  constructor
  · intro r hv
    rw [mkTaxComputeRequest, versionErrors_nil_of_isOk _ hv]
    by_cases h1 : r.as_of_month < 1 <;> by_cases h2 : 12 < r.as_of_month
    · simp [h1, h2, Except.isOk, Except.toBool]
    · simp [h1, h2, Except.isOk, Except.toBool]
    · simp [h1, h2, Except.isOk, Except.toBool]
    · simp [h1, h2, Except.isOk, Except.toBool]
      omega
  · intro r hv
    rw [mkTaxComputeResponse, versionErrors_nil_of_isOk _ hv]
    rfl

/-- Witness for C7 (amended): month `5` is accepted by the request and
month `13` by the response. -/
theorem tax_month_validation_spec_witness :
    (mkTaxComputeRequest { as_of_month := 5 }).isOk = true ∧
    (mkTaxComputeResponse { as_of_month := 13 }).isOk = true :=
  ⟨(tax_month_validation_spec.1 { as_of_month := 5 } (by decide)).mpr
      (by decide),
    tax_month_validation_spec.2 { as_of_month := 13 } (by decide)⟩

/-- Claim C8: a `TransactionClassificationResult` is constructible exactly
when `confidence` lies in the closed interval `[0, 1]` (boundaries
included). -/
theorem confidence_bounds_spec (r : TransactionClassificationResult)
    (hv : (validate_version r.schema_version).isOk = true) :
    (mkTransactionClassificationResult r).isOk = true ↔
      0 ≤ r.confidence ∧ r.confidence ≤ 1 := by
  rw [mkTransactionClassificationResult, versionErrors_nil_of_isOk _ hv]
  rcases lt_or_le r.confidence 0 with h1 | h1
  · have h2 : ¬ (1 : ℚ) < r.confidence := by linarith
    have h0 : ¬ (0 : ℚ) ≤ r.confidence := not_le.mpr h1
    simp [h1, h2, h0, Except.isOk, Except.toBool]
  · rcases lt_or_le (1 : ℚ) r.confidence with h2 | h2
    · have h1n : ¬ r.confidence < 0 := not_lt.mpr h1
      have hle : ¬ r.confidence ≤ 1 := not_le.mpr h2
      simp [h1n, h2, hle, Except.isOk, Except.toBool]
    · have h1n : ¬ r.confidence < 0 := not_lt.mpr h1
      have h2n : ¬ (1 : ℚ) < r.confidence := not_lt.mpr h2
      simp [h1n, h2n, h1, h2, Except.isOk, Except.toBool]

/-- Witness for C8 at the boundary values `1` and `0`. -/
theorem confidence_bounds_spec_witness :
    (mkTransactionClassificationResult
      { transaction_id := [], confidence := 1 }).isOk = true ∧
    (mkTransactionClassificationResult
      { transaction_id := [], confidence := 0 }).isOk = true :=
  ⟨(confidence_bounds_spec { transaction_id := [], confidence := 1 }
      (by decide)).mpr (by norm_num),
    (confidence_bounds_spec { transaction_id := [], confidence := 0 }
      (by decide)).mpr (by norm_num)⟩

/-- Claim C9: a `BatchClassificationResponse` built from input carrying the
metadata record under the alias key `_meta` exposes it under the canonical
field name `meta`, and the field is populatable under either key. -/
theorem meta_alias_population (sv : PyStr)
    (cls : List TransactionClassificationResult) (sr : List SuggestedRule)
    (m : ClassificationResponseMeta)
    (hv : (validate_version sv).isOk = true) :
    (mkBatchClassificationResponse sv cls sr (some m) none).map
        (fun b => b.meta) = Except.ok m ∧
    (mkBatchClassificationResponse sv cls sr none (some m)).map
        (fun b => b.meta) = Except.ok m := by
  rw [mkBatchClassificationResponse, mkBatchClassificationResponse,
    versionErrors_nil_of_isOk _ hv]
  exact ⟨rfl, rfl⟩

/-- Witness for C9 at a concrete metadata record. -/
theorem meta_alias_population_witness :
    (mkBatchClassificationResponse (("1.0").toList) [] [] (some { }) none).map
        (fun b => b.meta) = Except.ok { } ∧
    (mkBatchClassificationResponse (("1.0").toList) [] [] none (some { })).map
        (fun b => b.meta) = Except.ok { } :=
  meta_alias_population (("1.0").toList) [] [] { } (by decide)

/-- Claim C10: a `TransactionClassificationRequest` construction attempt
that violates several constraints reports every violation in the single
reported validation error: each absent required field contributes its
`Field required` entry to the one error list of that attempt. -/
theorem request_missing_fields_reported (sv : PyStr)
    (tenant_id client_id : Option PyStr)
    (transactions : Option (List TransactionForClassification))
    (available_accounts : List AvailableAccount)
    (existing_rules : List ExistingRule)
    (historical_patterns : List HistoricalPattern)
    (client_context : ClientContext) :
    (tenant_id = none → missingFieldMsg (("tenant_id").toList) ∈
      constructionErrors (mkTransactionClassificationRequest sv tenant_id
        client_id transactions available_accounts existing_rules
        historical_patterns client_context)) ∧
    (client_id = none → missingFieldMsg (("client_id").toList) ∈
      constructionErrors (mkTransactionClassificationRequest sv tenant_id
        client_id transactions available_accounts existing_rules
        historical_patterns client_context)) ∧
    (transactions = none → missingFieldMsg (("transactions").toList) ∈
      constructionErrors (mkTransactionClassificationRequest sv tenant_id
        client_id transactions available_accounts existing_rules
        historical_patterns client_context)) := by
  refine ⟨fun h1 => ?_, fun h2 => ?_, fun h3 => ?_⟩
  · subst h1
    cases client_id <;> cases transactions <;>
      simp [mkTransactionClassificationRequest, requestErrors, requiredErr,
        constructionErrors, List.mem_append]
  · subst h2
    cases tenant_id <;> cases transactions <;>
      simp [mkTransactionClassificationRequest, requestErrors, requiredErr,
        constructionErrors, List.mem_append]
  · subst h3
    cases tenant_id <;> cases client_id <;>
      simp [mkTransactionClassificationRequest, requestErrors, requiredErr,
        constructionErrors, List.mem_append]

/-- Witness for C10: with all three required fields absent, the single
reported error identifies all three. -/
theorem request_missing_fields_reported_witness :
    missingFieldMsg (("tenant_id").toList) ∈
      constructionErrors (mkTransactionClassificationRequest
        (("1.0").toList) none none none [] [] [] { }) ∧
    missingFieldMsg (("client_id").toList) ∈
      constructionErrors (mkTransactionClassificationRequest
        (("1.0").toList) none none none [] [] [] { }) ∧
    missingFieldMsg (("transactions").toList) ∈
      constructionErrors (mkTransactionClassificationRequest
        (("1.0").toList) none none none [] [] [] { }) :=
  ⟨(request_missing_fields_reported (("1.0").toList) none none none
      [] [] [] { }).1 rfl,
    (request_missing_fields_reported (("1.0").toList) none none none
      [] [] [] { }).2.1 rfl,
    (request_missing_fields_reported (("1.0").toList) none none none
      [] [] [] { }).2.2 rfl⟩

end PlatformContracts
